import Mathlib

/-!
Verification of the offboard control sequencing node
(`src/examples/offboard/offboard_commander_node.cpp`, class `OffboardCommander`).

The node is embedded shallowly:
  * the outgoing message types `OffboardControlMode`, `TrajectorySetpoint` and
    `VehicleCommand` become structures whose float fields are modelled as
    rationals (the node only copies and negates float values, and every literal
    it writes is a decimal literal, so exact rational arithmetic is faithful);
  * the mutable members `timestamp_`, `offboard_setpoint_counter_` and
    `next_trajectory_setpoint_msg` become a `NodeState` record;
  * each callback becomes a pure function from `NodeState` (and the inbound
    message, if any) to a new `NodeState` together with the list of messages it
    publishes, in publication order;
  * a whole execution is a list of `Event`s (timer ticks, inbound poses,
    inbound time syncs) folded over the initial state by `run`.
-/

/-- Outgoing `px4_msgs::msg::OffboardControlMode` message. -/
structure OffboardControlMode where
  timestamp : Nat
  position : Bool
  velocity : Bool
  acceleration : Bool
  attitude : Bool
  body_rate : Bool
deriving Repr, DecidableEq

/-- Outgoing `px4_msgs::msg::TrajectorySetpoint` message (the fields the node
writes: timestamp, x, y, z, yaw). -/
structure TrajectorySetpoint where
  timestamp : Nat
  x : ℚ
  y : ℚ
  z : ℚ
  yaw : ℚ
deriving Repr, DecidableEq

/-- Outgoing `px4_msgs::msg::VehicleCommand` message (the fields the node
writes). -/
structure VehicleCommand where
  timestamp : Nat
  param1 : ℚ
  param2 : ℚ
  command : Nat
  target_system : Nat
  target_component : Nat
  source_system : Nat
  source_component : Nat
  from_external : Bool
deriving Repr, DecidableEq

/-- Command code `VehicleCommand::VEHICLE_CMD_DO_SET_MODE` (declared in
`px4_msgs`, value per MAVLink `MAV_CMD_DO_SET_MODE`). -/
def VEHICLE_CMD_DO_SET_MODE : Nat := 176

/-- Command code `VehicleCommand::VEHICLE_CMD_COMPONENT_ARM_DISARM` (declared
in `px4_msgs`, value per MAVLink `MAV_CMD_COMPONENT_ARM_DISARM`). -/
def VEHICLE_CMD_COMPONENT_ARM_DISARM : Nat := 400

/-- Position part of an inbound `geometry_msgs::msg::PoseStamped`. -/
structure Point where
  x : ℚ
  y : ℚ
  z : ℚ
deriving Repr, DecidableEq

/-- Orientation part of an inbound pose (`geometry_msgs` quaternion, renamed to avoid the Mathlib `Quaternion`); the node never reads it. -/
structure OrientationQuat where
  qx : ℚ
  qy : ℚ
  qz : ℚ
  qw : ℚ
deriving Repr, DecidableEq

/-- Pose part of an inbound `geometry_msgs::msg::PoseStamped`. -/
structure Pose where
  position : Point
  orientation : OrientationQuat
deriving Repr, DecidableEq

/-- Inbound `geometry_msgs::msg::PoseStamped` (the part the node consumes). -/
structure PoseStamped where
  pose : Pose
deriving Repr, DecidableEq

/-- The mutable members of the `OffboardCommander` node: the shared timestamp
cell `timestamp_`, the tick counter `offboard_setpoint_counter_`, and the
stored target setpoint `next_trajectory_setpoint_msg`. -/
structure NodeState where
  timestamp_ : Nat
  offboard_setpoint_counter_ : Nat
  next_trajectory_setpoint_msg : TrajectorySetpoint
deriving Repr, DecidableEq

/-- State established by the `OffboardCommander` constructor:
`offboard_setpoint_counter_ = 0` and the takeoff pose
`(x, y, z, yaw) = (0.0, 0.0, -1.0, -3.14)`. The member `timestamp_` has no
explicit initializer in the source; it is modelled as the documented
"unsynced" default `0` (the constructor also copies `timestamp_.load()` into
the stored setpoint's timestamp). -/
def initState : NodeState :=
  { timestamp_ := 0
    offboard_setpoint_counter_ := 0
    next_trajectory_setpoint_msg :=
      { timestamp := 0
        x := 0
        y := 0
        z := -1
        yaw := -3.14 } }

/-- `OffboardCommander::publish_vehicle_command`: builds a `VehicleCommand`
stamped with `timestamp_.load()`, fixed target/source identifiers `1`, and
`from_external = true`. The C++ signature defaults `param1` and `param2` to
`0.0`; call sites that rely on a default pass `0` here explicitly. -/
def publish_vehicle_command (s : NodeState) (command : Nat) (param1 param2 : ℚ) :
    VehicleCommand :=
  { timestamp := s.timestamp_
    param1 := param1
    param2 := param2
    command := command
    target_system := 1
    target_component := 1
    source_system := 1
    source_component := 1
    from_external := true }

/-- `OffboardCommander::arm`: publishes `VEHICLE_CMD_COMPONENT_ARM_DISARM`
with `param1 = 1.0` (and `param2` left at its default `0.0`). -/
def arm (s : NodeState) : VehicleCommand :=
  publish_vehicle_command s VEHICLE_CMD_COMPONENT_ARM_DISARM 1 0

/-- `OffboardCommander::disarm`: publishes `VEHICLE_CMD_COMPONENT_ARM_DISARM`
with `param1 = 0.0` (and `param2` left at its default `0.0`). -/
def disarm (s : NodeState) : VehicleCommand :=
  publish_vehicle_command s VEHICLE_CMD_COMPONENT_ARM_DISARM 0 0

/-- `OffboardCommander::publish_offboard_control_mode`: position-only control
mode declaration, stamped with `timestamp_.load()`. -/
def publish_offboard_control_mode (s : NodeState) : OffboardControlMode :=
  { timestamp := s.timestamp_
    position := true
    velocity := false
    acceleration := false
    attitude := false
    body_rate := false }

/-- `OffboardCommander::publish_trajectory_setpoint`: builds a fresh
`TrajectorySetpoint` stamped with `timestamp_.load()` and copies the x, y, z
and yaw fields of the stored `next_trajectory_setpoint_msg`. -/
def publish_trajectory_setpoint (s : NodeState) : TrajectorySetpoint :=
  { timestamp := s.timestamp_
    x := s.next_trajectory_setpoint_msg.x
    y := s.next_trajectory_setpoint_msg.y
    z := s.next_trajectory_setpoint_msg.z
    yaw := s.next_trajectory_setpoint_msg.yaw }

/-- One message published by the node, tagged by topic. -/
inductive Output where
  | ctrlMode (m : OffboardControlMode)
  | trajSp (m : TrajectorySetpoint)
  | vehCmd (m : VehicleCommand)
deriving Repr, DecidableEq

/-- The lambda `timer_callback` registered on the 33 ms wall timer: if the
counter equals 10, publish `VEHICLE_CMD_DO_SET_MODE (1, 6)` then the arm
command; unconditionally publish the offboard control mode and the current
trajectory setpoint; finally increment the counter if it is below 11.
Returns the new state and the published messages in publication order. -/
def timer_callback (s : NodeState) : NodeState × List Output :=
  let cmds : List Output :=
    if s.offboard_setpoint_counter_ = 10 then
      [Output.vehCmd (publish_vehicle_command s VEHICLE_CMD_DO_SET_MODE 1 6),
       Output.vehCmd (arm s)]
    else []
  let outs : List Output :=
    cmds ++ [Output.ctrlMode (publish_offboard_control_mode s),
             Output.trajSp (publish_trajectory_setpoint s)]
  let counter : Nat :=
    if s.offboard_setpoint_counter_ < 11 then s.offboard_setpoint_counter_ + 1
    else s.offboard_setpoint_counter_
  ({ s with offboard_setpoint_counter_ := counter }, outs)

/-- `OffboardCommander::update_target_setpoint_cb`: overwrites the stored
`next_trajectory_setpoint_msg` with timestamp `timestamp_.load()`,
`x = msg.pose.position.x`, `y = msg.pose.position.y`,
`z = -msg.pose.position.z` (ENU to NED) and the fixed yaw `-3.14`. -/
def update_target_setpoint_cb (s : NodeState) (msg : PoseStamped) : NodeState :=
  { s with next_trajectory_setpoint_msg :=
      { timestamp := s.timestamp_
        x := msg.pose.position.x
        y := msg.pose.position.y
        z := -msg.pose.position.z
        yaw := -3.14 } }

/-- The lambda subscribed to `Timesync_PubSubTopic`:
`timestamp_.store(msg->timestamp)`. -/
def timesync_cb (s : NodeState) (t : Nat) : NodeState :=
  { s with timestamp_ := t }

/-- One event delivered to the node: a timer tick, an inbound pose, or an
inbound time sync. -/
inductive Event where
  | tick
  | pose (msg : PoseStamped)
  | sync (t : Nat)
deriving Repr, DecidableEq

/-- State transition of one event. -/
def stepState (s : NodeState) : Event → NodeState
  | Event.tick => (timer_callback s).1
  | Event.pose m => update_target_setpoint_cb s m
  | Event.sync t => timesync_cb s t

/-- Messages published while handling one event (only ticks publish). -/
def stepOut (s : NodeState) : Event → List Output
  | Event.tick => (timer_callback s).2
  | Event.pose _ => []
  | Event.sync _ => []

/-- Run the node from state `s` over a list of events, collecting the final
state and all published messages in order. -/
def run (s : NodeState) : List Event → NodeState × List Output
  | [] => (s, [])
  | e :: es =>
    let r := run (stepState s e) es
    (r.1, stepOut s e ++ r.2)

/-- Whether an event is a timer tick. -/
def isTick : Event → Bool
  | Event.tick => true
  | _ => false

/-- Whether an event is an inbound pose. -/
def isPose : Event → Bool
  | Event.pose _ => true
  | _ => false

/-- Whether an event is an inbound time sync. -/
def isSync : Event → Bool
  | Event.sync _ => true
  | _ => false

/-- Number of timer ticks in an event list. -/
def numTicks (es : List Event) : Nat := es.countP isTick

/-- Value of the `timestamp_` cell after the events `es`, starting from value
`t0`: the payload of the last sync event, or `t0` if there is none. -/
def lastSync (t0 : Nat) (es : List Event) : Nat :=
  es.foldl (fun a e => match e with | Event.sync u => u | _ => a) t0

/-- Project the vehicle commands of an output list to
(command code, param1, param2), preserving order. -/
def cmdSummary (outs : List Output) : List (Nat × ℚ × ℚ) :=
  outs.filterMap fun o =>
    match o with
    | Output.vehCmd c => some (c.command, c.param1, c.param2)
    | _ => none

/-- The mode-change / arm pair emitted at the handshake tick, projected to
(command code, param1, param2). -/
def handshakePair : List (Nat × ℚ × ℚ) :=
  [(VEHICLE_CMD_DO_SET_MODE, 1, 6), (VEHICLE_CMD_COMPONENT_ARM_DISARM, 1, 0)]

/-- The control-mode declarations in an output list. -/
def ctrlOutputs (outs : List Output) : List OffboardControlMode :=
  outs.filterMap fun o =>
    match o with
    | Output.ctrlMode m => some m
    | _ => none

/-- The trajectory setpoints in an output list. -/
def trajOutputs (outs : List Output) : List TrajectorySetpoint :=
  outs.filterMap fun o =>
    match o with
    | Output.trajSp m => some m
    | _ => none

/-- The timestamp an output message carries. -/
def outTimestamp : Output → Nat
  | Output.ctrlMode m => m.timestamp
  | Output.trajSp m => m.timestamp
  | Output.vehCmd m => m.timestamp

example : (-3.14 : ℚ) = -157 / 50 := by norm_num

example :
    (run initState [Event.tick]).1.offboard_setpoint_counter_ = 1 := by decide

example :
    cmdSummary (run initState [Event.tick, Event.tick]).2 = [] := by decide

/-! Basic unfolding lemmas about `run` and the per-event behaviour. -/

lemma run_fst_cons (s : NodeState) (e : Event) (es : List Event) :
    (run s (e :: es)).1 = (run (stepState s e) es).1 := rfl

lemma run_snd_cons (s : NodeState) (e : Event) (es : List Event) :
    (run s (e :: es)).2 = stepOut s e ++ (run (stepState s e) es).2 := rfl

lemma tick_counter (s : NodeState) :
    (stepState s Event.tick).offboard_setpoint_counter_ =
      if s.offboard_setpoint_counter_ < 11 then s.offboard_setpoint_counter_ + 1
      else s.offboard_setpoint_counter_ := rfl

lemma pose_counter (s : NodeState) (m : PoseStamped) :
    (stepState s (Event.pose m)).offboard_setpoint_counter_ =
      s.offboard_setpoint_counter_ := rfl

lemma sync_counter (s : NodeState) (t : Nat) :
    (stepState s (Event.sync t)).offboard_setpoint_counter_ =
      s.offboard_setpoint_counter_ := rfl

lemma numTicks_cons_tick (es : List Event) :
    numTicks (Event.tick :: es) = numTicks es + 1 := by
  simp [numTicks, List.countP_cons, isTick]

lemma numTicks_cons_pose (m : PoseStamped) (es : List Event) :
    numTicks (Event.pose m :: es) = numTicks es := by
  simp [numTicks, List.countP_cons, isTick]

lemma numTicks_cons_sync (t : Nat) (es : List Event) :
    numTicks (Event.sync t :: es) = numTicks es := by
  simp [numTicks, List.countP_cons, isTick]

/-- Counter evolution over a whole run: starting from a counter that is at
most 11, the counter after the run equals the minimum of (start + number of
ticks) and 11. -/
lemma run_counter (es : List Event) : ∀ s : NodeState,
    s.offboard_setpoint_counter_ ≤ 11 →
    (run s es).1.offboard_setpoint_counter_ =
      min (s.offboard_setpoint_counter_ + numTicks es) 11 := by
  induction es with
  | nil =>
    intro s h
    simp only [run, numTicks, List.countP_nil]
    omega
  | cons e es ih =>
    intro s h
    rw [run_fst_cons]
    cases e with
    | tick =>
      have hle : (stepState s Event.tick).offboard_setpoint_counter_ ≤ 11 := by
        rw [tick_counter]; split_ifs <;> omega
      rw [ih _ hle, tick_counter, numTicks_cons_tick]
      split_ifs <;> omega
    | pose m =>
      have hle : (stepState s (Event.pose m)).offboard_setpoint_counter_ ≤ 11 := by
        rw [pose_counter]; exact h
      rw [ih _ hle, pose_counter, numTicks_cons_pose]
    | sync t =>
      have hle : (stepState s (Event.sync t)).offboard_setpoint_counter_ ≤ 11 := by
        rw [sync_counter]; exact h
      rw [ih _ hle, sync_counter, numTicks_cons_sync]

lemma cmdSummary_append (l1 l2 : List Output) :
    cmdSummary (l1 ++ l2) = cmdSummary l1 ++ cmdSummary l2 := by
  simp [cmdSummary, List.filterMap_append]

/-- Vehicle commands emitted by a single tick: the handshake pair when the
counter is exactly 10, nothing otherwise. -/
lemma cmdSummary_tick (s : NodeState) :
    cmdSummary (timer_callback s).2 =
      if s.offboard_setpoint_counter_ = 10 then handshakePair else [] := by
  by_cases h : s.offboard_setpoint_counter_ = 10 <;>
    simp [timer_callback, cmdSummary, handshakePair, h, publish_vehicle_command,
      arm, publish_offboard_control_mode, publish_trajectory_setpoint]

/-- Vehicle commands emitted over a whole run: starting from a counter that is
at most 11, the handshake pair is emitted exactly when the run carries the
counter from at most 10 past 10, and nothing else is ever emitted. -/
lemma run_cmds (es : List Event) : ∀ s : NodeState,
    s.offboard_setpoint_counter_ ≤ 11 →
    cmdSummary (run s es).2 =
      if s.offboard_setpoint_counter_ ≤ 10 ∧
          11 ≤ s.offboard_setpoint_counter_ + numTicks es
      then handshakePair else [] := by
  induction es with
  | nil =>
    intro s h
    have hcond : ¬(s.offboard_setpoint_counter_ ≤ 10 ∧
        11 ≤ s.offboard_setpoint_counter_ + numTicks ([] : List Event)) := by
      simp only [numTicks, List.countP_nil]
      omega
    simp [run, cmdSummary, hcond]
  | cons e es ih =>
    intro s h
    rw [run_snd_cons, cmdSummary_append]
    cases e with
    | tick =>
      have hle : (stepState s Event.tick).offboard_setpoint_counter_ ≤ 11 := by
        rw [tick_counter]; split_ifs <;> omega
      have hstep : cmdSummary (stepOut s Event.tick) =
          if s.offboard_setpoint_counter_ = 10 then handshakePair else [] :=
        cmdSummary_tick s
      rw [hstep, ih _ hle, tick_counter, numTicks_cons_tick]
      split_ifs <;> first | rfl | (exfalso; omega)
    | pose m =>
      have hle : (stepState s (Event.pose m)).offboard_setpoint_counter_ ≤ 11 := by
        rw [pose_counter]; exact h
      rw [ih _ hle, pose_counter, numTicks_cons_pose]
      simp [stepOut, cmdSummary]
    | sync t =>
      have hle : (stepState s (Event.sync t)).offboard_setpoint_counter_ ≤ 11 := by
        rw [sync_counter]; exact h
      rw [ih _ hle, sync_counter, numTicks_cons_sync]
      simp [stepOut, cmdSummary]

/-- Control-mode declarations emitted by a single tick: always exactly the one
built by `publish_offboard_control_mode`. -/
lemma ctrlOutputs_tick (s : NodeState) :
    ctrlOutputs (timer_callback s).2 = [publish_offboard_control_mode s] := by
  by_cases h : s.offboard_setpoint_counter_ = 10 <;>
    simp [timer_callback, ctrlOutputs, h]

/-- Trajectory setpoints emitted by a single tick: always exactly the one
built by `publish_trajectory_setpoint`. -/
lemma trajOutputs_tick (s : NodeState) :
    trajOutputs (timer_callback s).2 = [publish_trajectory_setpoint s] := by
  by_cases h : s.offboard_setpoint_counter_ = 10 <;>
    simp [timer_callback, trajOutputs, h]

/-- Every message a tick publishes is stamped with the current value of the
`timestamp_` cell. -/
lemma tick_out_ts (s : NodeState) :
    ∀ o ∈ (timer_callback s).2, outTimestamp o = s.timestamp_ := by
  intro o ho
  by_cases h : s.offboard_setpoint_counter_ = 10
  · simp [timer_callback, h] at ho
    rcases ho with rfl | rfl | rfl | rfl <;>
      simp [outTimestamp, publish_vehicle_command, arm,
        publish_offboard_control_mode, publish_trajectory_setpoint]
  · simp [timer_callback, h] at ho
    rcases ho with rfl | rfl <;>
      simp [outTimestamp, publish_offboard_control_mode,
        publish_trajectory_setpoint]

lemma trajOutputs_append (l1 l2 : List Output) :
    trajOutputs (l1 ++ l2) = trajOutputs l1 ++ trajOutputs l2 := by
  simp [trajOutputs, List.filterMap_append]

/-- In a run without pose events the stored setpoint is never rewritten, and
every emitted trajectory setpoint copies its x, y, z and yaw fields. -/
lemma run_no_pose (es : List Event) : ∀ s : NodeState,
    es.countP isPose = 0 →
    (run s es).1.next_trajectory_setpoint_msg = s.next_trajectory_setpoint_msg
    ∧ ∀ m ∈ trajOutputs (run s es).2,
        m.x = s.next_trajectory_setpoint_msg.x
        ∧ m.y = s.next_trajectory_setpoint_msg.y
        ∧ m.z = s.next_trajectory_setpoint_msg.z
        ∧ m.yaw = s.next_trajectory_setpoint_msg.yaw := by
  induction es with
  | nil =>
    intro s _
    exact ⟨rfl, by intro m hm; simp [run, trajOutputs] at hm⟩
  | cons e es ih =>
    intro s h
    cases e with
    | tick =>
      have hnext : (stepState s Event.tick).next_trajectory_setpoint_msg =
          s.next_trajectory_setpoint_msg := rfl
      have h0 : es.countP isPose = 0 := by
        simpa [List.countP_cons, isPose] using h
      obtain ⟨ih1, ih2⟩ := ih (stepState s Event.tick) h0
      refine ⟨by rw [run_fst_cons, ih1, hnext], ?_⟩
      intro m hm
      rw [run_snd_cons, trajOutputs_append] at hm
      rcases List.mem_append.1 hm with hm | hm
      · have : trajOutputs (stepOut s Event.tick) = [publish_trajectory_setpoint s] :=
          trajOutputs_tick s
        rw [this] at hm
        simp at hm
        subst hm
        exact ⟨rfl, rfl, rfl, rfl⟩
      · have := ih2 m hm
        rw [hnext] at this
        exact this
    | pose m =>
      exact absurd h (by simp [List.countP_cons, isPose])
    | sync t =>
      have hnext : (stepState s (Event.sync t)).next_trajectory_setpoint_msg =
          s.next_trajectory_setpoint_msg := rfl
      have h0 : es.countP isPose = 0 := by
        simpa [List.countP_cons, isPose] using h
      obtain ⟨ih1, ih2⟩ := ih (stepState s (Event.sync t)) h0
      refine ⟨by rw [run_fst_cons, ih1, hnext], ?_⟩
      intro m hm
      rw [run_snd_cons] at hm
      have hso : stepOut s (Event.sync t) = [] := rfl
      rw [hso, List.nil_append] at hm
      have := ih2 m hm
      rw [hnext] at this
      exact this

/-- In a run without sync events the `timestamp_` cell keeps its initial
value, and every emitted message is stamped with it. -/
lemma run_no_sync (es : List Event) : ∀ s : NodeState,
    es.countP isSync = 0 →
    (run s es).1.timestamp_ = s.timestamp_
    ∧ ∀ o ∈ (run s es).2, outTimestamp o = s.timestamp_ := by
  induction es with
  | nil =>
    intro s _
    exact ⟨rfl, by intro o ho; simp [run] at ho⟩
  | cons e es ih =>
    intro s h
    cases e with
    | tick =>
      have hts : (stepState s Event.tick).timestamp_ = s.timestamp_ := rfl
      have h0 : es.countP isSync = 0 := by
        simpa [List.countP_cons, isSync] using h
      obtain ⟨ih1, ih2⟩ := ih (stepState s Event.tick) h0
      refine ⟨by rw [run_fst_cons, ih1, hts], ?_⟩
      intro o ho
      rw [run_snd_cons] at ho
      rcases List.mem_append.1 ho with ho | ho
      · exact tick_out_ts s o ho
      · have := ih2 o ho
        rw [hts] at this
        exact this
    | pose m =>
      have hts : (stepState s (Event.pose m)).timestamp_ = s.timestamp_ := rfl
      have h0 : es.countP isSync = 0 := by
        simpa [List.countP_cons, isSync] using h
      obtain ⟨ih1, ih2⟩ := ih (stepState s (Event.pose m)) h0
      refine ⟨by rw [run_fst_cons, ih1, hts], ?_⟩
      intro o ho
      rw [run_snd_cons] at ho
      have hso : stepOut s (Event.pose m) = [] := rfl
      rw [hso, List.nil_append] at ho
      have := ih2 o ho
      rw [hts] at this
      exact this
    | sync t =>
      exact absurd h (by simp [List.countP_cons, isSync])

/-- The `timestamp_` cell after a run holds the payload of the last sync
event, or the starting value if there was none. -/
lemma run_ts (es : List Event) : ∀ s : NodeState,
    (run s es).1.timestamp_ = lastSync s.timestamp_ es := by
  induction es with
  | nil => intro s; rfl
  | cons e es ih =>
    intro s
    rw [run_fst_cons]
    cases e with
    | tick =>
      have hts : (stepState s Event.tick).timestamp_ = s.timestamp_ := rfl
      rw [ih, hts]; rfl
    | pose m =>
      have hts : (stepState s (Event.pose m)).timestamp_ = s.timestamp_ := rfl
      rw [ih, hts]; rfl
    | sync t =>
      have hts : (stepState s (Event.sync t)).timestamp_ = t := rfl
      rw [ih, hts]; rfl

/-- A tick publishes the same messages from two states that differ only in
the timestamp field of the stored setpoint. -/
lemma tick_outs_ignore_sp_ts (s : NodeState) (t : Nat) :
    (timer_callback { s with next_trajectory_setpoint_msg :=
        { s.next_trajectory_setpoint_msg with timestamp := t } }).2 =
      (timer_callback s).2 := rfl

/-- A whole run publishes the same messages from two states that differ only
in the timestamp field of the stored setpoint. -/
lemma run_outs_ignore_sp_ts (es : List Event) : ∀ (s : NodeState) (t : Nat),
    (run { s with next_trajectory_setpoint_msg :=
        { s.next_trajectory_setpoint_msg with timestamp := t } } es).2 =
      (run s es).2 := by
  induction es with
  | nil => intro s t; rfl
  | cons e es ih =>
    intro s t
    rw [run_snd_cons, run_snd_cons]
    cases e with
    | tick =>
      have h1 : stepOut { s with next_trajectory_setpoint_msg :=
          { s.next_trajectory_setpoint_msg with timestamp := t } } Event.tick =
            stepOut s Event.tick := tick_outs_ignore_sp_ts s t
      have h2 : stepState { s with next_trajectory_setpoint_msg :=
          { s.next_trajectory_setpoint_msg with timestamp := t } } Event.tick =
            { (stepState s Event.tick) with next_trajectory_setpoint_msg :=
              { (stepState s Event.tick).next_trajectory_setpoint_msg with
                timestamp := t } } := rfl
      rw [h1, h2, ih]
    | pose m =>
      have h2 : stepState { s with next_trajectory_setpoint_msg :=
          { s.next_trajectory_setpoint_msg with timestamp := t } } (Event.pose m) =
            stepState s (Event.pose m) := rfl
      rw [h2]
      rfl
    | sync u =>
      have h2 : stepState { s with next_trajectory_setpoint_msg :=
          { s.next_trajectory_setpoint_msg with timestamp := t } } (Event.sync u) =
            { (stepState s (Event.sync u)) with next_trajectory_setpoint_msg :=
              { (stepState s (Event.sync u)).next_trajectory_setpoint_msg with
                timestamp := t } } := rfl
      rw [h2, ih]
      rfl

/-! Claim theorems. -/

/-- Claim C1: the timer tick handler emits the mode-change command (code
`VEHICLE_CMD_DO_SET_MODE`, params 1 and 6) followed by the arm command (code
`VEHICLE_CMD_COMPONENT_ARM_DISARM`, params 1 and 0), in that order, exactly
when the counter equals 10 on entry to the tick; over any whole execution
from the constructor state, the pair is emitted exactly once as soon as the
execution contains at least 11 ticks, and no vehicle command is ever emitted
otherwise. -/
theorem handshake_emitted_iff_counter_ten :
    (∀ s : NodeState, cmdSummary (timer_callback s).2 =
        if s.offboard_setpoint_counter_ = 10 then handshakePair else [])
    ∧ ∀ es : List Event, cmdSummary (run initState es).2 =
        if 11 ≤ numTicks es then handshakePair else [] := by
  refine ⟨cmdSummary_tick, ?_⟩
  intro es
  have h := run_cmds es initState (by decide)
  have h0 : initState.offboard_setpoint_counter_ = 0 := rfl
  have hiff : (initState.offboard_setpoint_counter_ ≤ 10 ∧
      11 ≤ initState.offboard_setpoint_counter_ + numTicks es) ↔
        (11 ≤ numTicks es) := by
    rw [h0]
    omega
  rw [h, if_congr hiff rfl rfl]

/-- Claim C2: every execution of the timer tick handler, in every state,
publishes exactly one control-mode declaration and exactly one trajectory
setpoint, and the declaration always has `position = true` and `velocity`,
`acceleration`, `attitude`, `body_rate` all `false`. -/
theorem every_tick_emits_mode_and_setpoint (s : NodeState) :
    ctrlOutputs (timer_callback s).2 = [publish_offboard_control_mode s]
    ∧ trajOutputs (timer_callback s).2 = [publish_trajectory_setpoint s]
    ∧ publish_offboard_control_mode s =
        { timestamp := s.timestamp_
          position := true
          velocity := false
          acceleration := false
          attitude := false
          body_rate := false } :=
  ⟨ctrlOutputs_tick s, trajOutputs_tick s, rfl⟩

/-- Claim C3: the tick counter starts at 0, increments by exactly 1 on each
tick while below 11, and saturates at 11: after any event sequence from the
constructor state the counter equals `min (number of ticks) 11`, hence is at
most 11 and never changes once it has reached 11. -/
theorem counter_starts_zero_saturates_eleven :
    initState.offboard_setpoint_counter_ = 0
    ∧ (∀ s : NodeState, (timer_callback s).1.offboard_setpoint_counter_ =
        if s.offboard_setpoint_counter_ < 11 then s.offboard_setpoint_counter_ + 1
        else s.offboard_setpoint_counter_)
    ∧ (∀ es : List Event,
        (run initState es).1.offboard_setpoint_counter_ = min (numTicks es) 11)
    ∧ (∀ es : List Event, (run initState es).1.offboard_setpoint_counter_ ≤ 11) := by
  refine ⟨rfl, fun s => rfl, ?_, ?_⟩
  · intro es
    have h := run_counter es initState (by decide)
    have h0 : initState.offboard_setpoint_counter_ = 0 := rfl
    rw [h, h0, Nat.zero_add]
  · intro es
    have h := run_counter es initState (by decide)
    rw [h]
    exact min_le_right _ _

/-- Claim C4 (counterexample): in the execution consisting of a single tick
with no pose ever received, the emitted trajectory setpoint has yaw exactly
the literal `-3.14`, and that value is not `-π`, refuting the claimed
`yaw = -π`. -/
theorem default_yaw_is_not_neg_pi :
    (trajOutputs (run initState [Event.tick]).2).map TrajectorySetpoint.yaw
        = [(-3.14 : ℚ)]
    ∧ (((-3.14 : ℚ) : ℝ) ≠ -Real.pi) := by
  constructor
  · rfl
  · intro hc
    have hpi : (3.14 : ℝ) < Real.pi := Real.pi_gt_d2
    have h2 : ((-3.14 : ℚ) : ℝ) = -(3.14 : ℝ) := by norm_num
    rw [h2] at hc
    have h3 : Real.pi = (3.14 : ℝ) := by linarith
    linarith

/-- Claim C4 (amended): in any execution in which no pose event is ever
received, every emitted trajectory setpoint has `x = 0`, `y = 0`, `z = -1`
and yaw equal to the hard-coded literal `-3.14` (the code's approximation of
`-π`, not `-π` itself). -/
theorem default_setpoint_constant_when_no_pose (es : List Event)
    (h : es.countP isPose = 0) :
    ∀ m ∈ trajOutputs (run initState es).2,
      m.x = 0 ∧ m.y = 0 ∧ m.z = -1 ∧ m.yaw = -3.14 := by
  intro m hm
  exact (run_no_pose es initState h).2 m hm

/-- Witness for the amended C4 theorem at the concrete execution of one tick
and the setpoint it emits. -/
theorem default_setpoint_constant_when_no_pose_witness :
    ([Event.tick].countP isPose = 0)
    ∧ ((publish_trajectory_setpoint initState).x = 0
      ∧ (publish_trajectory_setpoint initState).y = 0
      ∧ (publish_trajectory_setpoint initState).z = -1
      ∧ (publish_trajectory_setpoint initState).yaw = -3.14) :=
  ⟨by decide, default_setpoint_constant_when_no_pose [Event.tick] (by decide)
      (publish_trajectory_setpoint initState) (List.Mem.head _)⟩

/-- Claim C5: the pose-ingest handler writes a stored setpoint whose x and y
copy the incoming position, whose z is the negation of the incoming z (ENU to
NED), and whose yaw is the fixed constant `-3.14` regardless of the incoming
orientation; in particular position (2, -3, 5) yields (2, -3, -5). -/
theorem ingest_converts_enu_to_ned :
    (∀ (s : NodeState) (msg : PoseStamped),
      (update_target_setpoint_cb s msg).next_trajectory_setpoint_msg =
        { timestamp := s.timestamp_
          x := msg.pose.position.x
          y := msg.pose.position.y
          z := -msg.pose.position.z
          yaw := -3.14 })
    ∧ (∀ (s : NodeState) (p : Point) (q q' : OrientationQuat),
        update_target_setpoint_cb s ⟨⟨p, q⟩⟩ = update_target_setpoint_cb s ⟨⟨p, q'⟩⟩)
    ∧ ((update_target_setpoint_cb initState
          ⟨⟨⟨2, -3, 5⟩, ⟨0, 0, 0, 1⟩⟩⟩).next_trajectory_setpoint_msg.x = 2
      ∧ (update_target_setpoint_cb initState
          ⟨⟨⟨2, -3, 5⟩, ⟨0, 0, 0, 1⟩⟩⟩).next_trajectory_setpoint_msg.y = -3
      ∧ (update_target_setpoint_cb initState
          ⟨⟨⟨2, -3, 5⟩, ⟨0, 0, 0, 1⟩⟩⟩).next_trajectory_setpoint_msg.z = -5) :=
  ⟨fun _ _ => rfl, fun _ _ _ _ => rfl, rfl, rfl, rfl⟩

/-- Claim C6: every vehicle command is stamped with the current timestamp
cell and carries `target_system = target_component = source_system =
source_component = 1` and `from_external = true`; `arm` emits the arm/disarm
code with `param1 = 1` and `disarm` the same code with `param1 = 0`, both
with `param2` at its default `0`. -/
theorem vehicle_command_fixed_fields :
    (∀ (s : NodeState) (c : Nat) (p1 p2 : ℚ),
      (publish_vehicle_command s c p1 p2).timestamp = s.timestamp_
      ∧ (publish_vehicle_command s c p1 p2).target_system = 1
      ∧ (publish_vehicle_command s c p1 p2).target_component = 1
      ∧ (publish_vehicle_command s c p1 p2).source_system = 1
      ∧ (publish_vehicle_command s c p1 p2).source_component = 1
      ∧ (publish_vehicle_command s c p1 p2).from_external = true)
    ∧ (∀ s : NodeState,
        arm s = publish_vehicle_command s VEHICLE_CMD_COMPONENT_ARM_DISARM 1 0
        ∧ disarm s = publish_vehicle_command s VEHICLE_CMD_COMPONENT_ARM_DISARM 0 0
        ∧ (arm s).command = VEHICLE_CMD_COMPONENT_ARM_DISARM
        ∧ (arm s).param1 = 1 ∧ (arm s).param2 = 0
        ∧ (disarm s).command = VEHICLE_CMD_COMPONENT_ARM_DISARM
        ∧ (disarm s).param1 = 0 ∧ (disarm s).param2 = 0) :=
  ⟨fun _ _ _ _ => ⟨rfl, rfl, rfl, rfl, rfl, rfl⟩,
   fun _ => ⟨rfl, rfl, rfl, rfl, rfl, rfl, rfl, rfl⟩⟩

/-- Claim C7 (counterexample): the timestamp cell is not monotonically
non-decreasing over arbitrary sync sequences: after receiving sync 5 a read
yields 5, but after a further sync 3 a read yields 3, which is smaller. -/
theorem timesync_not_monotone_counterexample :
    (run initState [Event.sync 5]).1.timestamp_ = 5
    ∧ (run initState [Event.sync 5, Event.sync 3]).1.timestamp_ = 3
    ∧ ¬(5 ≤ (run initState [Event.sync 5, Event.sync 3]).1.timestamp_) :=
  ⟨rfl, rfl, by decide⟩

/-- Claim C7 (amended): the timestamp cell always equals the payload of the
most recently received sync event (0 before the first), so no outgoing
message is ever stamped older than the most recent sync; monotonicity of the
reads holds only when the inbound sync payloads themselves are
non-decreasing. -/
theorem timesync_equals_last_sync :
    (∀ es : List Event, (run initState es).1.timestamp_ = lastSync 0 es)
    ∧ (∀ s : NodeState, ∀ o ∈ (timer_callback s).2, outTimestamp o = s.timestamp_) :=
  ⟨fun es => run_ts es initState, tick_out_ts⟩

/-- Witness for the amended C7 theorem at a concrete emitted message. -/
theorem timesync_equals_last_sync_witness :
    (Output.ctrlMode (publish_offboard_control_mode initState) ∈
      (timer_callback initState).2)
    ∧ outTimestamp (Output.ctrlMode (publish_offboard_control_mode initState)) =
        initState.timestamp_ :=
  ⟨by decide, timesync_equals_last_sync.2 initState _ (by decide)⟩

/-- Claim C8: in any execution in which no sync event is ever received, every
message the node publishes carries timestamp 0. -/
theorem unsynced_outputs_zero_timestamp (es : List Event)
    (h : es.countP isSync = 0) :
    ∀ o ∈ (run initState es).2, outTimestamp o = 0 := by
  intro o ho
  exact (run_no_sync es initState h).2 o ho

/-- Witness for the C8 theorem at the concrete execution of one tick and the
setpoint message it emits. -/
theorem unsynced_outputs_zero_timestamp_witness :
    ([Event.tick].countP isSync = 0)
    ∧ outTimestamp (Output.trajSp (publish_trajectory_setpoint initState)) = 0 :=
  ⟨by decide, unsynced_outputs_zero_timestamp [Event.tick] (by decide) _
      (List.Mem.tail _ (List.Mem.head _))⟩

/-- Claim C9: the pose-ingest update is a full replace and is idempotent:
applying it twice with the same pose equals applying it once, and the result
is independent of whatever setpoint was stored before. -/
theorem setpoint_set_full_replace_idempotent :
    (∀ (s : NodeState) (msg : PoseStamped),
      update_target_setpoint_cb (update_target_setpoint_cb s msg) msg =
        update_target_setpoint_cb s msg)
    ∧ (∀ (s : NodeState) (n : TrajectorySetpoint) (msg : PoseStamped),
        update_target_setpoint_cb { s with next_trajectory_setpoint_msg := n } msg =
          update_target_setpoint_cb s msg) :=
  ⟨fun _ _ => rfl, fun _ _ _ => rfl⟩

/-- Claim C10: the timestamp of every emitted trajectory setpoint is read
fresh from the timestamp cell at publish time; the stored setpoint's own
timestamp field has no effect on any published message, so two executions
whose stored setpoints differ only in that field publish identical message
streams. -/
theorem emitted_messages_ignore_stored_timestamp :
    (∀ s : NodeState, (publish_trajectory_setpoint s).timestamp = s.timestamp_)
    ∧ (∀ (s : NodeState) (t : Nat) (es : List Event),
        (run { s with next_trajectory_setpoint_msg :=
            { s.next_trajectory_setpoint_msg with timestamp := t } } es).2 =
          (run s es).2) :=
  ⟨fun _ => rfl, fun s t es => run_outs_ignore_sp_ts es s t⟩
